import Mathlib

/-!
Verification of the Mujra smart drainage-network monitoring application.

The development shallowly embeds the network data model, the risk-scoring
utilities (`networkUtils`), the aggregate system-status and simulation-tick
logic of the `App` component, and the procedural network generator
(`networkDataGenerator`).  Machine numbers are modelled as exact rationals
(`ℚ`); `Math.random()` draws are modelled by explicit oracle parameters
quantified over all possible values; the transcendental haversine distance is
modelled as an arbitrary distance-function parameter where only the induced
ordering matters.
-/

namespace Mujra

/-- `SystemStatus = 'Normal' | 'Warning' | 'Critical'` from `types/index.ts`. -/
inductive SystemStatus where
  | Normal
  | Warning
  | Critical
deriving DecidableEq, Repr

/-- `NodeType = 'Standard' | 'Flow' | 'Pressure' | 'Junction' | 'Pump'`
from `types/index.ts`. -/
inductive NodeType where
  | Standard
  | Flow
  | Pressure
  | Junction
  | Pump
deriving DecidableEq, Repr

/-- `SensorNode` from `types/index.ts` (the fields the embedded logic reads;
`lastMaintenance` and `city` are presentational strings never read by the
embedded functions). -/
structure SensorNode where
  id : String
  position : ℚ × ℚ
  status : SystemStatus
  type : NodeType
  flowLevel : Option ℚ := none
  riskValue : Option ℚ := none
  pressure : Option ℚ := none
deriving DecidableEq, Repr

/-- `PipeConnection` from `types/index.ts`. -/
structure PipeConnection where
  id : String
  startNode : String
  endNode : String
  status : SystemStatus
  flowRate : Option ℚ := none
  diameter : Option ℚ := none
  material : String := ""
  age : Option ℚ := none
deriving DecidableEq, Repr

/-! ## `networkUtils.ts` (src/unnamed/part_000) -/

/-- The neighbour-id list built inside `calculateNodeRisk`:
`connections.filter(c => c.startNode === node.id || c.endNode === node.id)
  .map(c => c.startNode === node.id ? c.endNode : c.startNode)`. -/
def connectedNodeIds (node : SensorNode) (connections : List PipeConnection) : List String :=
  (connections.filter (fun c => c.startNode == node.id || c.endNode == node.id)).map
    (fun c => if c.startNode == node.id then c.endNode else c.startNode)

/-- The critical-neighbour count computed inside `calculateNodeRisk`:
`nodes.filter(n => connectedNodeIds.includes(n.id)).filter(n => n.status === 'Critical').length`. -/
def criticalConnectedCount (node : SensorNode) (connections : List PipeConnection)
    (nodes : List SensorNode) : ℕ :=
  ((nodes.filter (fun n => (connectedNodeIds node connections).contains n.id)).filter
    (fun n => n.status == SystemStatus.Critical)).length

/-- `calculateNodeRisk` from `networkUtils.ts`: base risk from own status,
plus a node-type contribution, plus 0.15 per critical connected node,
capped at 1. -/
def calculateNodeRisk (node : SensorNode) (connections : List PipeConnection)
    (nodes : List SensorNode) : ℚ :=
  let risk : ℚ :=
    match node.status with
    | .Normal => 0.1
    | .Warning => 0.5
    | .Critical => 0.9
  let risk : ℚ :=
    if node.type = .Pump then
      risk + 0.2
    else if node.type = .Junction then
      let connectedCount :=
        (connections.filter (fun c => c.startNode == node.id || c.endNode == node.id)).length
      risk + min 0.2 ((connectedCount : ℚ) * 0.05)
    else risk
  let risk := risk + (criticalConnectedCount node connections nodes : ℚ) * 0.15
  min 1 risk

/-- `getRiskClassification` from `networkUtils.ts`. -/
def getRiskClassification (riskScore : ℚ) : SystemStatus :=
  if riskScore ≥ 0.7 then .Critical
  else if riskScore ≥ 0.3 then .Warning
  else .Normal

/-- `distanceToLineSegment` from `networkUtils.ts`, up to the final
`Math.sqrt`: this definition returns the squared distance (the code returns
its square root, a transcendental step kept out of the embedding so the
definition stays computable over `ℚ`; `sqrt` is strictly monotone on
non-negatives, so all branch behaviour is captured here).  The division by
`lenSq` is guarded exactly as in the source (`param` stays `-1` when
`lenSq === 0`). -/
def distanceToLineSegmentSq (px py x1 y1 x2 y2 : ℚ) : ℚ :=
  let A := px - x1
  let B := py - y1
  let C := x2 - x1
  let D := y2 - y1
  let dot := A * C + B * D
  let lenSq := C * C + D * D
  let param : ℚ := if lenSq ≠ 0 then dot / lenSq else -1
  let xx := if param < 0 then x1 else if param > 1 then x2 else x1 + param * C
  let yy := if param < 0 then y1 else if param > 1 then y2 else y1 + param * D
  let dx := px - xx
  let dy := py - yy
  dx * dx + dy * dy

/-- `findNearestNodes` from `networkUtils.ts`: filter out excluded ids, pair
each node with its distance to the query point, sort by distance, take the
first `n`, return the nodes.  The haversine `calculateDistance` is
transcendental, so the distance function is a parameter `dist`; only the
ordering it induces matters to any consumer. -/
def findNearestNodes (dist : ℚ × ℚ → ℚ × ℚ → ℚ) (lon lat : ℚ)
    (nodes : List SensorNode) (n : ℕ) (excludeIds : List String) : List SensorNode :=
  ((((nodes.filter (fun node => !(excludeIds.contains node.id))).map
      (fun node => (node, dist (lon, lat) node.position))).mergeSort
      (fun a b => decide (a.2 ≤ b.2))).take n).map (fun d => d.1)

/-! ## Specification-side reading of the per-node risk formula (claim C1)

These definitions follow the spec's wording ("base from own status", "type
contribution", "count of directly connected neighbor nodes currently in
Critical status") and are compared with `calculateNodeRisk` above. -/

/-- Spec wording: base risk of a status (Normal 0.1, Warning 0.5, Critical 0.9). -/
def specBaseRisk : SystemStatus → ℚ
  | .Normal => 0.1
  | .Warning => 0.5
  | .Critical => 0.9

/-- Spec wording: the degree of a node = number of incident connections. -/
def nodeDegree (node : SensorNode) (connections : List PipeConnection) : ℕ :=
  (connections.filter (fun c => c.startNode == node.id || c.endNode == node.id)).length

/-- Spec wording: type contribution (Pump flat 0.2; Junction
`min(0.2, 0.05 × degree)`; otherwise 0). -/
def specTypeContribution (node : SensorNode) (connections : List PipeConnection) : ℚ :=
  if node.type = .Pump then 0.2
  else if node.type = .Junction then min 0.2 ((nodeDegree node connections : ℚ) * 0.05)
  else 0

/-- Spec wording: node `m` is directly connected to `node` via `connections`
when some connection links the two ids (in either direction). -/
def directlyConnected (node : SensorNode) (connections : List PipeConnection)
    (m : SensorNode) : Bool :=
  connections.any (fun c =>
    (c.startNode == node.id && c.endNode == m.id) ||
    (c.endNode == node.id && c.startNode == m.id))

/-- Spec wording: number of nodes in `nodes` directly connected to `node`
whose status is Critical. -/
def specCriticalNeighborCount (node : SensorNode) (connections : List PipeConnection)
    (nodes : List SensorNode) : ℕ :=
  (nodes.filter (fun m =>
    directlyConnected node connections m && m.status == SystemStatus.Critical)).length

/-! ## `App.tsx` (src/unnamed/part_003): system status, simulation tick,
optimize action -/

/-- JS `String.prototype.includes`, at the character-list level (structural
recursion so the kernel can evaluate it on literals). -/
def charListContainsSub (pat : List Char) : List Char → Bool
  | [] => pat.isPrefixOf []
  | c :: rest => pat.isPrefixOf (c :: rest) || charListContainsSub pat rest

/-- `nodeId.includes(pat)` for the flood-prone-district test. -/
def stringIncludes (s pat : String) : Bool :=
  charListContainsSub pat.toList s.toList

/-- The tick's flood-prone-area test:
`node.id.includes('Downtown') || node.id.includes('Marina') || node.id.includes('Jumeirah')`. -/
def isFloodProneArea (nodeId : String) : Bool :=
  stringIncludes nodeId "Downtown" || stringIncludes nodeId "Marina" ||
    stringIncludes nodeId "Jumeirah"

/-- The tick's per-node base failure probability:
`Math.min(0.01 + (age / 200) + (floodRiskFactor * 0.2), 0.25)` with
`floodRiskFactor = calculatedRisk / 100`. -/
def nodeFailureProbability (age calculatedRisk : ℚ) : ℚ :=
  let floodRiskFactor := calculatedRisk / 100
  min (0.01 + age / 200 + floodRiskFactor * 0.2) 0.25

/-- The probability actually compared against `Math.random()`:
`isFloodProneArea ? failureProbability * 1.5 : failureProbability`.
Note the source applies the 0.25 cap *before* the 1.5 multiplier. -/
def adjustedFailureProbability (node : SensorNode) (age calculatedRisk : ℚ) : ℚ :=
  let failureProbability := nodeFailureProbability age calculatedRisk
  if isFloodProneArea node.id then failureProbability * 1.5 else failureProbability

/-- `calculateSystemStatus` from `App.tsx`.  The `connections` parameter is
accepted and unused, as in the source.  With `ℚ`, division by zero (empty
node list) yields 0; the JS source yields `NaN` there, and the two conventions
produce the same branch decisions because every `NaN` comparison is false
while the `0/0 = 0` convention only affects disjuncts that are subsumed by
`riskPercentage` thresholds. -/
def calculateSystemStatus (nodes : List SensorNode) (connections : List PipeConnection)
    (riskPercentage : ℚ) : SystemStatus :=
  let criticalNodes : ℚ :=
    ((nodes.filter (fun n => n.status == SystemStatus.Critical)).length : ℚ)
  let warningNodes : ℚ :=
    ((nodes.filter (fun n => n.status == SystemStatus.Warning)).length : ℚ)
  let totalNodes : ℚ := (nodes.length : ℚ)
  let problematicPercentage := ((criticalNodes * 3) + warningNodes) / totalNodes * 100
  let nodeStatusWeight : ℚ := 0.6
  let floodingRiskWeight : ℚ := 0.4
  let combinedScore :=
    (problematicPercentage * nodeStatusWeight) + (riskPercentage * floodingRiskWeight)
  if combinedScore > 60 ∨ riskPercentage > 80 ∨ criticalNodes > totalNodes * 0.15 then
    .Critical
  else if combinedScore > 30 ∨ riskPercentage > 50 ∨ warningNodes > totalNodes * 0.25 then
    .Warning
  else .Normal

/-- Number of Critical nodes (the count taken inside `calculateSystemStatus`). -/
def criticalNodeCount (nodes : List SensorNode) : ℕ :=
  (nodes.filter (fun n => n.status == SystemStatus.Critical)).length

/-- Number of Warning nodes (the count taken inside `calculateSystemStatus`). -/
def warningNodeCount (nodes : List SensorNode) : ℕ :=
  (nodes.filter (fun n => n.status == SystemStatus.Warning)).length

/-- The application state touched by `handleOptimize` (nodes, connections,
aggregate risk percentage, aggregate system status). -/
structure AppState where
  nodes : List SensorNode
  connections : List PipeConnection
  riskPercentage : ℚ
  systemStatus : SystemStatus

/-- The state transformation of `handleOptimize` in `App.tsx`: risk drops by
30 floored at 0, Critical statuses become Warning, Warning become Normal,
and the aggregate system status is set to Normal. -/
def handleOptimize (s : AppState) : AppState :=
  { nodes := s.nodes.map (fun node =>
      { node with status :=
          if node.status = .Critical then .Warning
          else if node.status = .Warning then .Normal
          else node.status }),
    connections := s.connections.map (fun conn =>
      { conn with status :=
          if conn.status = .Critical then .Warning
          else if conn.status = .Warning then .Normal
          else conn.status }),
    riskPercentage := max 0 (s.riskPercentage - 30),
    systemStatus := .Normal }

/-- Spec wording for the optimize action's status map: Critical ↦ Warning,
Warning ↦ Normal, Normal unchanged. -/
def downgradeStatus : SystemStatus → SystemStatus
  | .Critical => .Warning
  | .Warning => .Normal
  | .Normal => .Normal

/-! ## Aggregate-risk updates (claim C4)

Every write to `riskPercentage` in `App.tsx`, with each `Math.random()`-derived
quantity an explicit parameter constrained to the range the source draws it
from. -/

/-- Simulation-tick blend:
`Math.min(100, Math.max(0, nodeBasedRisk*0.7 + riskPercentage*0.3 + riskFluctuation))`. -/
def tickRiskUpdate (nodeBasedRisk riskFluctuation prev : ℚ) : ℚ :=
  min 100 (max 0 (nodeBasedRisk * 0.7 + prev * 0.3 + riskFluctuation))

/-- Optimize action: `Math.max(0, prev - 30)`. -/
def optimizeRiskUpdate (prev : ℚ) : ℚ := max 0 (prev - 30)

/-- Protection-window tick: `Math.max(15, Math.min(35, prev + fluctuation))`. -/
def protectionRiskUpdate (fluctuation prev : ℚ) : ℚ :=
  max 15 (min 35 (prev + fluctuation))

/-- Rainfall-scenario spike: `Math.min(95, prev + riskIncrease)` where the
increase is 15/25/35 for Critical/Warning/Normal system status. -/
def rainfallRiskUpdate (systemStatus : SystemStatus) (prev : ℚ) : ℚ :=
  let riskIncrease : ℚ :=
    match systemStatus with
    | .Critical => 15
    | .Warning => 25
    | .Normal => 35
  min 95 (prev + riskIncrease)

/-- Rainfall-scenario recovery: `Math.max(20, prev - 50)`. -/
def rainfallRecoveryRiskUpdate (prev : ℚ) : ℚ := max 20 (prev - 50)

/-- Randomize-network action: `Math.min(100, Math.max(0, prev + riskChange))`. -/
def randomizeRiskUpdate (riskChange prev : ℚ) : ℚ :=
  min 100 (max 0 (prev + riskChange))

/-- Risk percentages reachable from the initial `useState(25)` through the
risk-updating operations of `App.tsx`.  Fluctuation parameters carry the
bounds of the random draws in the source (`(Math.random()*2)-1`,
`(Math.random()*4)-2`, `(Math.random()*20)-10`); `nodeBasedRisk` is left
unconstrained, which only strengthens the invariant. -/
inductive RiskReachable : ℚ → Prop
  | init : RiskReachable 25
  | tick (nodeBasedRisk riskFluctuation r : ℚ) : RiskReachable r →
      -1 ≤ riskFluctuation → riskFluctuation ≤ 1 →
      RiskReachable (tickRiskUpdate nodeBasedRisk riskFluctuation r)
  | optimize (r : ℚ) : RiskReachable r → RiskReachable (optimizeRiskUpdate r)
  | protection (fluctuation r : ℚ) : RiskReachable r →
      -2 ≤ fluctuation → fluctuation ≤ 2 →
      RiskReachable (protectionRiskUpdate fluctuation r)
  | rainfall (systemStatus : SystemStatus) (r : ℚ) : RiskReachable r →
      RiskReachable (rainfallRiskUpdate systemStatus r)
  | rainfallRecovery (r : ℚ) : RiskReachable r →
      RiskReachable (rainfallRecoveryRiskUpdate r)
  | randomize (riskChange r : ℚ) : RiskReachable r →
      -10 ≤ riskChange → riskChange ≤ 10 →
      RiskReachable (randomizeRiskUpdate riskChange r)

/-! ## `networkDataGenerator.ts` (src/unnamed/part_004)

`generateNetworkData` draws from `Math.random()` at many sites; every draw is
supplied by an oracle quantified over all values.  The geographic position
sampling (`randomPositionNear`), the critical-area membership test and the
weighted status/type draws collapse into oracle-supplied per-index values: in
the source each composite draw can produce any value of its result range, so
quantifying over the oracle covers every run of the generator. -/

/-- Oracle for every `Math.random()`-derived quantity in `generateNetworkData`. -/
structure GenOracle where
  nodePosition : ℕ → ℚ × ℚ
  nodeTypeDraw : ℕ → NodeType
  nodeStatusDraw : ℕ → SystemStatus
  nodeFlowLevel : ℕ → ℚ
  nodePressure : ℕ → ℚ
  connCountDraw : ℕ → ℕ
  pickDraw : ℕ → ℕ → ℕ
  connStatusDraw : ℕ → SystemStatus
  connFlowRate : ℕ → ℚ
  connDiameter : ℕ → ℚ
  connMaterial : ℕ → String
  connAge : ℕ → ℚ

/-- The node built in iteration `i` of the node-generation loop: id
`node-${i}`, sampled position/type/status, and type-specific metrics
(flow level for Flow/Pump, pressure for Pressure). -/
def generateNode (o : GenOracle) (i : ℕ) : SensorNode :=
  let nodeType := o.nodeTypeDraw i
  { id := "node-" ++ toString i,
    position := o.nodePosition i,
    type := nodeType,
    status := o.nodeStatusDraw i,
    flowLevel := if nodeType = .Flow ∨ nodeType = .Pump then some (o.nodeFlowLevel i) else none,
    riskValue := none,
    pressure := if nodeType = .Pressure then some (o.nodePressure i) else none }

/-- The node-generation loop (`for (let i = 0; i < nodeCount; i++)`). -/
def generateNodes (o : GenOracle) (nodeCount : ℕ) : List SensorNode :=
  (List.range nodeCount).map (generateNode o)

/-- The random selection loop over `nearestNodes`: while
`j < connectionsCount && j < nearestNodes.length` (re-evaluated as the pool
shrinks), pick `nearestNodes[floor(random * nearestNodes.length)]` and splice
it out.  `picks j % pool.length` ranges over exactly the indices
`Math.floor(Math.random() * length)` can produce. -/
def spliceSelect (picks : ℕ → ℕ) (connectionsCount : ℕ) :
    ℕ → List SensorNode → List SensorNode
  | j, pool =>
    if h : j < connectionsCount ∧ j < pool.length then
      let i := picks j % pool.length
      pool.get ⟨i, Nat.mod_lt _ (Nat.lt_of_le_of_lt (Nat.zero_le j) h.2)⟩ ::
        spliceSelect picks connectionsCount (j + 1) (pool.eraseIdx i)
    else []
  termination_by j _ => connectionsCount - j
  decreasing_by simp_wf; omega

/-- The connection-creation step: push a connection from `startNode` to
`endNode` unless one already links the same unordered pair
(`connections.some(...)` dedup check in the source). -/
def pushConnection (o : GenOracle) (startNode endNode : SensorNode)
    (conns : List PipeConnection) : List PipeConnection :=
  if conns.any (fun conn =>
      (conn.startNode == startNode.id && conn.endNode == endNode.id) ||
      (conn.startNode == endNode.id && conn.endNode == startNode.id)) then
    conns
  else
    conns ++ [{ id := "connection-" ++ toString conns.length,
                startNode := startNode.id,
                endNode := endNode.id,
                status := o.connStatusDraw conns.length,
                flowRate := some (o.connFlowRate conns.length),
                diameter := some (o.connDiameter conns.length),
                material := o.connMaterial conns.length,
                age := some (o.connAge conns.length) }]

/-- One iteration of the outer connection loop: bound the connection count by
`min(max(1, floor(random * max(1, floor(length*density/2)))), 5)`, find the
`connectionsCount + 3` nearest nodes excluding `startNode` itself, randomly
select from them, and push the non-duplicate connections. -/
def connectionsForNode (o : GenOracle) (dist : ℚ × ℚ → ℚ × ℚ → ℚ)
    (nodes : List SensorNode) (connectionDensity : ℚ) (i : ℕ)
    (startNode : SensorNode) (conns : List PipeConnection) : List PipeConnection :=
  let maxConnections := max 1 (Int.toNat ⌊(nodes.length : ℚ) * connectionDensity / 2⌋)
  let connectionsCount := min (max 1 (o.connCountDraw i % maxConnections)) 5
  let nearestNodes := findNearestNodes dist startNode.position.1 startNode.position.2
      nodes (connectionsCount + 3) [startNode.id]
  let nodesToConnect := spliceSelect (o.pickDraw i) connectionsCount 0 nearestNodes
  nodesToConnect.foldl (fun acc endNode => pushConnection o startNode endNode acc) conns

/-- The whole connection-generation phase of `generateNetworkData`. -/
def generateConnections (o : GenOracle) (dist : ℚ × ℚ → ℚ × ℚ → ℚ)
    (nodes : List SensorNode) (connectionDensity : ℚ) : List PipeConnection :=
  nodes.enum.foldl
    (fun acc p => connectionsForNode o dist nodes connectionDensity p.1 p.2 acc) []

/-- One step of the generator's post-pass (`nodes.forEach`): for the node at
index `i`, if not already Critical, store its computed risk and upgrade its
status (> 0.7 Critical, > 0.4 Warning).  The source mutates the array in
place, so later iterations observe earlier updates; the fold below threads the
updated list accordingly. -/
def riskPassStep (connections : List PipeConnection) (nodes : List SensorNode)
    (i : ℕ) : List SensorNode :=
  match nodes.get? i with
  | none => nodes
  | some node =>
    if node.status = .Critical then nodes
    else
      let nodeConnections := connections.filter (fun conn =>
        conn.startNode == node.id || conn.endNode == node.id)
      let connectedNodes := nodes.filter (fun n =>
        nodeConnections.any (fun c => c.startNode == n.id || c.endNode == n.id))
      let risk := calculateNodeRisk node nodeConnections connectedNodes
      let updated :=
        if risk > 0.7 then { node with riskValue := some risk, status := .Critical }
        else if risk > 0.4 then { node with riskValue := some risk, status := .Warning }
        else { node with riskValue := some risk }
      nodes.set i updated

/-- The generator's post-pass over every node index. -/
def applyRiskPass (connections : List PipeConnection)
    (nodes : List SensorNode) : List SensorNode :=
  (List.range nodes.length).foldl (riskPassStep connections) nodes

/-- The `{nodes, connections}` record returned by `generateNetworkData`. -/
structure NetworkData where
  nodes : List SensorNode
  connections : List PipeConnection

/-- `generateNetworkData` (center coordinates and `criticalAreaProbability`
only influence the oracle-supplied position and status draws). -/
def generateNetworkData (o : GenOracle) (dist : ℚ × ℚ → ℚ × ℚ → ℚ)
    (nodeCount : ℕ) (connectionDensity : ℚ) : NetworkData :=
  let nodes := generateNodes o nodeCount
  let connections := generateConnections o dist nodes connectionDensity
  { nodes := applyRiskPass connections nodes, connections := connections }

/-- Spec wording: two connections link the same unordered node pair. -/
def sameUnorderedPair (c₁ c₂ : PipeConnection) : Prop :=
  (c₁.startNode = c₂.startNode ∧ c₁.endNode = c₂.endNode) ∨
  (c₁.startNode = c₂.endNode ∧ c₁.endNode = c₂.startNode)

/-- Spec wording of the generator invariant relative to a node list: every
connection's endpoints exist in the node set, no self-loops, and no two
connections link the same unordered pair. -/
def connectionsWellFormed (nodes : List SensorNode)
    (conns : List PipeConnection) : Prop :=
  (∀ c ∈ conns,
    (∃ n ∈ nodes, n.id = c.startNode) ∧ (∃ n ∈ nodes, n.id = c.endNode) ∧
    c.startNode ≠ c.endNode) ∧
  conns.Pairwise (fun c₁ c₂ => ¬ sameUnorderedPair c₁ c₂)

/-! ## Equivalence of the code's neighbour computation with the spec's wording -/

/-- Per-connection step: the code's "incident connection whose far endpoint is
`m.id`" test coincides with the spec's "a connection links `node` and `m`". -/
theorem incident_far_endpoint_eq (node m : SensorNode) (c : PipeConnection) :
    ((c.startNode == node.id || c.endNode == node.id) &&
      ((if c.startNode == node.id then c.endNode else c.startNode) == m.id)) =
    ((c.startNode == node.id && c.endNode == m.id) ||
      (c.endNode == node.id && c.startNode == m.id)) := by
  cases h1 : c.startNode == node.id <;> cases h2 : c.endNode == node.id <;>
    cases h3 : c.endNode == m.id <;> cases h4 : c.startNode == m.id <;> simp_all

/-- `String` boolean equality is symmetric. -/
theorem string_beq_comm (a b : String) : (a == b) = (b == a) := by
  rw [Bool.eq_iff_iff]
  constructor <;> intro h <;> rw [beq_iff_eq] at h ⊢ <;> exact h.symm

/-- The code's `connectedNodeIds.includes(m.id)` equals the spec's
`directlyConnected` predicate. -/
theorem contains_connectedNodeIds (node m : SensorNode) :
    ∀ cs : List PipeConnection,
      (connectedNodeIds node cs).contains m.id = directlyConnected node cs m
  | [] => rfl
  | c :: cs => by
    have ih := contains_connectedNodeIds node m cs
    have hstep := incident_far_endpoint_eq node m c
    simp only [connectedNodeIds, directlyConnected, List.filter_cons, List.any_cons] at ih ⊢
    cases h : (c.startNode == node.id || c.endNode == node.id) with
    | true =>
      rw [h, Bool.true_and] at hstep
      simp only [h, if_true, List.map_cons, List.contains_cons, ih,
        string_beq_comm m.id, hstep]
    | false =>
      rw [h, Bool.false_and] at hstep
      simp only [h, Bool.false_eq_true, if_false, ih, ← hstep, Bool.false_or]

/-- The code's critical-connected count equals the spec's critical-neighbour
count. -/
theorem criticalConnectedCount_eq (node : SensorNode) (cs : List PipeConnection)
    (ns : List SensorNode) :
    criticalConnectedCount node cs ns = specCriticalNeighborCount node cs ns := by
  unfold criticalConnectedCount specCriticalNeighborCount
  rw [List.filter_filter]
  congr 1
  apply List.filter_congr
  intro m _
  rw [contains_connectedNodeIds node m cs, Bool.and_comm]

/-- `calculateNodeRisk` written as the spec's closed formula. -/
theorem calculateNodeRisk_eq (node : SensorNode) (cs : List PipeConnection)
    (ns : List SensorNode) :
    calculateNodeRisk node cs ns =
      min 1 (specBaseRisk node.status + specTypeContribution node cs +
        0.15 * (specCriticalNeighborCount node cs ns : ℚ)) := by
  unfold calculateNodeRisk specBaseRisk specTypeContribution nodeDegree
  rw [criticalConnectedCount_eq]
  cases node.status <;> by_cases hp : node.type = .Pump <;>
    by_cases hj : node.type = .Junction <;> simp [hp, hj] <;> ring_nf

/-- C1: for every node `n`, connection list `cs` and node list `ns`,
`calculateNodeRisk(n, cs, ns)` equals `min(1, base(n.status) +
typeContribution(n, cs) + 0.15 × #{critical directly connected nodes in ns})`,
with base 0.1/0.5/0.9 for Normal/Warning/Critical and type contribution 0.2
for pumps, `min(0.2, 0.05 × degree)` for junctions, 0 otherwise. -/
theorem calculateNodeRisk_matches_spec_formula (n : SensorNode)
    (cs : List PipeConnection) (ns : List SensorNode) :
    calculateNodeRisk n cs ns =
      min 1 (specBaseRisk n.status + specTypeContribution n cs +
        0.15 * (specCriticalNeighborCount n cs ns : ℚ)) :=
  calculateNodeRisk_eq n cs ns

/-- C2: the risk classification is Normal iff the score is below 0.3, Warning
iff it is in [0.3, 0.7), and Critical iff it is at least 0.7. -/
theorem getRiskClassification_thresholds (s : ℚ) :
    (getRiskClassification s = .Normal ↔ s < 0.3) ∧
    (getRiskClassification s = .Warning ↔ 0.3 ≤ s ∧ s < 0.7) ∧
    (getRiskClassification s = .Critical ↔ 0.7 ≤ s) := by
  unfold getRiskClassification
  split_ifs with h1 h2 <;>
    refine ⟨?_, ?_, ?_⟩ <;> constructor <;> intro h <;> simp_all <;> linarith

/-- C9: on a zero-length segment (both endpoints equal), the point-to-segment
distance function's division is guarded (`param` stays -1) and the function
returns the distance from the query point to the shared endpoint (stated on
the squared distance, the value under the final monotone `Math.sqrt`). -/
theorem distanceToLineSegmentSq_degenerate (px py x y : ℚ) :
    distanceToLineSegmentSq px py x y x y =
      (px - x) * (px - x) + (py - y) * (py - y) := by
  unfold distanceToLineSegmentSq
  norm_num

/-- C10: the per-node risk score always lies in [0.1, 1]: every status
contributes at least 0.1 before the cap at 1, so a score of exactly 0 is
impossible. -/
theorem calculateNodeRisk_bounds (node : SensorNode) (cs : List PipeConnection)
    (ns : List SensorNode) :
    0.1 ≤ calculateNodeRisk node cs ns ∧ calculateNodeRisk node cs ns ≤ 1 := by
  rw [calculateNodeRisk_eq]
  constructor
  · apply le_min (by norm_num)
    have h1 : (0.1 : ℚ) ≤ specBaseRisk node.status := by
      cases node.status <;> norm_num [specBaseRisk]
    have h2 : (0 : ℚ) ≤ specTypeContribution node cs := by
      unfold specTypeContribution
      split_ifs <;> [norm_num; exact le_min (by norm_num) (by positivity); norm_num]
    have h3 : (0 : ℚ) ≤ 0.15 * (specCriticalNeighborCount node cs ns : ℚ) := by positivity
    linarith
  · exact min_le_left _ _

/-! ## Theorems for claims C3, C5, C7 -/

/-- C3 counterexample: a flood-prone node (id contains "Marina") with
connection age 19 and flood risk 100 gets an escalation probability of
0.375, strictly above the claimed 0.25 bound. -/
theorem adjustedFailureProbability_exceeds_claimed_cap :
    0.25 < adjustedFailureProbability
      { id := "DubaiMarina-node-3", position := (0, 0),
        status := .Normal, type := .Standard } 19 100 := by
  have hfp : isFloodProneArea "DubaiMarina-node-3" = true := by decide
  unfold adjustedFailureProbability nodeFailureProbability
  rw [hfp]
  have hmin : min ((0.01 : ℚ) + 19 / 200 + 100 / 100 * 0.2) 0.25 = 0.25 :=
    min_eq_right (by norm_num)
  simp only [if_true, hmin]
  norm_num

/-- C3 (amended): the base failure probability is capped at 0.25, and the
probability actually used to decide escalation is bounded by 0.375 for
flood-prone nodes (the ×1.5 multiplier is applied after the cap) and by
0.25 for all other nodes. -/
theorem adjustedFailureProbability_bounds (node : SensorNode) (age calculatedRisk : ℚ) :
    nodeFailureProbability age calculatedRisk ≤ 0.25 ∧
    adjustedFailureProbability node age calculatedRisk ≤
      (if isFloodProneArea node.id then 0.375 else 0.25) := by
  have hb : nodeFailureProbability age calculatedRisk ≤ 0.25 := min_le_right _ _
  refine ⟨hb, ?_⟩
  unfold adjustedFailureProbability
  split_ifs
  · linarith
  · exact hb

/-- C5: `calculateSystemStatus` returns Critical iff the 60/40-weighted
combined score exceeds 60, or risk exceeds 80, or Critical nodes exceed 15%
of all nodes; otherwise Warning iff the combined score exceeds 30, or risk
exceeds 50, or Warning nodes exceed 25% of all nodes; otherwise Normal. -/
theorem calculateSystemStatus_characterization (nodes : List SensorNode)
    (connections : List PipeConnection) (r : ℚ) :
    (calculateSystemStatus nodes connections r = .Critical ↔
      0.6 * (((criticalNodeCount nodes : ℚ) * 3 + (warningNodeCount nodes : ℚ)) /
          (nodes.length : ℚ) * 100) + 0.4 * r > 60 ∨
      r > 80 ∨ (criticalNodeCount nodes : ℚ) > 0.15 * (nodes.length : ℚ)) ∧
    (calculateSystemStatus nodes connections r = .Warning ↔
      ¬ (0.6 * (((criticalNodeCount nodes : ℚ) * 3 + (warningNodeCount nodes : ℚ)) /
            (nodes.length : ℚ) * 100) + 0.4 * r > 60 ∨
         r > 80 ∨ (criticalNodeCount nodes : ℚ) > 0.15 * (nodes.length : ℚ)) ∧
      (0.6 * (((criticalNodeCount nodes : ℚ) * 3 + (warningNodeCount nodes : ℚ)) /
          (nodes.length : ℚ) * 100) + 0.4 * r > 30 ∨
       r > 50 ∨ (warningNodeCount nodes : ℚ) > 0.25 * (nodes.length : ℚ))) ∧
    (calculateSystemStatus nodes connections r = .Normal ↔
      ¬ (0.6 * (((criticalNodeCount nodes : ℚ) * 3 + (warningNodeCount nodes : ℚ)) /
            (nodes.length : ℚ) * 100) + 0.4 * r > 60 ∨
         r > 80 ∨ (criticalNodeCount nodes : ℚ) > 0.15 * (nodes.length : ℚ)) ∧
      ¬ (0.6 * (((criticalNodeCount nodes : ℚ) * 3 + (warningNodeCount nodes : ℚ)) /
            (nodes.length : ℚ) * 100) + 0.4 * r > 30 ∨
         r > 50 ∨ (warningNodeCount nodes : ℚ) > 0.25 * (nodes.length : ℚ))) := by
  unfold calculateSystemStatus criticalNodeCount warningNodeCount
  have e1 : ∀ x : ℚ, x * 0.6 = 0.6 * x := fun x => by ring
  have e2 : ∀ x : ℚ, x * 0.4 = 0.4 * x := fun x => by ring
  have e3 : (nodes.length : ℚ) * 0.15 = 0.15 * (nodes.length : ℚ) := by ring
  have e4 : (nodes.length : ℚ) * 0.25 = 0.25 * (nodes.length : ℚ) := by ring
  simp only [e1, e2, e3, e4]
  split_ifs with h1 h2 <;> refine ⟨?_, ?_, ?_⟩ <;> simp_all

/-- C7: a single optimize action downgrades every Critical node and
connection to Warning and every Warning one to Normal (Normal unchanged,
all other fields preserved), sets the risk percentage to
`max(0, previous − 30)`, and sets the aggregate system status to Normal. -/
theorem handleOptimize_effect (s : AppState) :
    (handleOptimize s).nodes =
      s.nodes.map (fun n => { n with status := downgradeStatus n.status }) ∧
    (handleOptimize s).connections =
      s.connections.map (fun c => { c with status := downgradeStatus c.status }) ∧
    (handleOptimize s).riskPercentage = max 0 (s.riskPercentage - 30) ∧
    (handleOptimize s).systemStatus = .Normal := by
  refine ⟨?_, ?_, rfl, rfl⟩
  · apply List.map_congr_left
    intro n _
    cases h : n.status <;> simp [downgradeStatus, h]
  · apply List.map_congr_left
    intro c _
    cases h : c.status <;> simp [downgradeStatus, h]

/-! ## Theorem for claim C4 -/

/-- C4: starting from the initial aggregate risk of 25, the aggregate risk
percentage stays in [0, 100] after every update any operation performs. -/
theorem riskPercentage_invariant (r : ℚ) (h : RiskReachable r) :
    0 ≤ r ∧ r ≤ 100 := by
  induction h with
  | init => norm_num
  | tick nodeBasedRisk riskFluctuation r _ _ _ ih =>
    unfold tickRiskUpdate
    constructor
    · exact le_min (by norm_num) (le_max_left _ _)
    · exact min_le_left _ _
  | optimize r _ ih =>
    unfold optimizeRiskUpdate
    constructor
    · exact le_max_left _ _
    · exact max_le (by norm_num) (by linarith [ih.2])
  | protection fluctuation r _ _ _ ih =>
    unfold protectionRiskUpdate
    constructor
    · exact le_trans (by norm_num) (le_max_left _ _)
    · exact max_le (by norm_num) (le_trans (min_le_left _ _) (by norm_num))
  | rainfall systemStatus r _ ih =>
    unfold rainfallRiskUpdate
    constructor
    · cases systemStatus <;> dsimp only <;>
        exact le_min (by norm_num) (by linarith [ih.1])
    · exact le_trans (min_le_left _ _) (by norm_num)
  | rainfallRecovery r _ ih =>
    unfold rainfallRecoveryRiskUpdate
    constructor
    · exact le_trans (by norm_num) (le_max_left _ _)
    · exact max_le (by norm_num) (by linarith [ih.2])
  | randomize riskChange r _ _ _ ih =>
    unfold randomizeRiskUpdate
    constructor
    · exact le_min (by norm_num) (le_max_left _ _)
    · exact min_le_left _ _

/-- C4 witness: the initial risk 25 is reachable and lies in [0, 100]. -/
theorem riskPercentage_invariant_witness : 0 ≤ (25 : ℚ) ∧ (25 : ℚ) ≤ 100 :=
  riskPercentage_invariant 25 RiskReachable.init

/-! ## Generator invariants (claim C6) -/

/-- Every node selected by the splice loop comes from the pool
(fuel-indexed induction matching the loop's termination measure). -/
theorem spliceSelect_mem_aux (picks : ℕ → ℕ) (cc : ℕ) :
    ∀ (fuel j : ℕ) (pool : List SensorNode), cc - j ≤ fuel →
      ∀ x ∈ spliceSelect picks cc j pool, x ∈ pool := by
  intro fuel
  induction fuel with
  | zero =>
    intro j pool hle x hx
    rw [spliceSelect] at hx
    rw [dif_neg (fun hcond => by omega)] at hx
    exact absurd hx (List.not_mem_nil x)
  | succ n ih =>
    intro j pool hle x hx
    rw [spliceSelect] at hx
    by_cases hcond : j < cc ∧ j < pool.length
    · rw [dif_pos hcond] at hx
      rcases List.mem_cons.1 hx with h1 | h2
      · rw [h1]
        exact List.get_mem _ _ _
      · have hsub := ih (j + 1) (pool.eraseIdx (picks j % pool.length)) (by omega) x h2
        exact List.eraseIdx_subset _ _ hsub
    · rw [dif_neg hcond] at hx
      exact absurd hx (List.not_mem_nil x)

/-- Membership form of the splice-loop lemma. -/
theorem mem_spliceSelect (picks : ℕ → ℕ) (cc j : ℕ) (pool : List SensorNode)
    (x : SensorNode) (hx : x ∈ spliceSelect picks cc j pool) : x ∈ pool :=
  spliceSelect_mem_aux picks cc (cc - j) j pool le_rfl x hx

/-- Every node returned by `findNearestNodes` is one of the input nodes and
is not excluded. -/
theorem mem_findNearestNodes (dist : ℚ × ℚ → ℚ × ℚ → ℚ) (lon lat : ℚ)
    (nodes : List SensorNode) (n : ℕ) (excludeIds : List String) (x : SensorNode)
    (hx : x ∈ findNearestNodes dist lon lat nodes n excludeIds) :
    x ∈ nodes ∧ excludeIds.contains x.id = false := by
  unfold findNearestNodes at hx
  obtain ⟨d, hd, hdx⟩ := List.mem_map.1 hx
  have hd2 := List.mem_of_mem_take hd
  rw [List.mem_mergeSort] at hd2
  obtain ⟨node, hnode, hdn⟩ := List.mem_map.1 hd2
  have hf := List.mem_filter.1 hnode
  rw [← hdn] at hdx
  dsimp only at hdx
  subst hdx
  refine ⟨hf.1, ?_⟩
  simpa using hf.2

/-- `pushConnection` preserves the generator invariant whenever the new
endpoints are nodes and differ. -/
theorem pushConnection_wellFormed (o : GenOracle) (nodes : List SensorNode)
    (s e : SensorNode) (conns : List PipeConnection)
    (hs : s ∈ nodes) (he : e ∈ nodes) (hne : e.id ≠ s.id)
    (h : connectionsWellFormed nodes conns) :
    connectionsWellFormed nodes (pushConnection o s e conns) := by
  unfold pushConnection
  split
  · exact h
  · next hno =>
    constructor
    · intro c hc
      rcases List.mem_append.1 hc with h1 | h2
      · exact h.1 c h1
      · rw [List.mem_singleton] at h2
        subst h2
        exact ⟨⟨s, hs, rfl⟩, ⟨e, he, rfl⟩, fun heq => hne heq.symm⟩
    · rw [List.pairwise_append]
      refine ⟨h.2, List.pairwise_singleton _ _, ?_⟩
      intro a ha b hb
      rw [List.mem_singleton] at hb
      subst hb
      intro hpair
      apply hno
      refine List.any_eq_true.2 ⟨a, ha, ?_⟩
      unfold sameUnorderedPair at hpair
      dsimp only at hpair
      rcases hpair with ⟨h1, h2⟩ | ⟨h1, h2⟩ <;> simp [h1, h2]

/-- The connection-creation fold preserves the generator invariant. -/
theorem foldl_pushConnection_wellFormed (o : GenOracle) (nodes : List SensorNode)
    (s : SensorNode) (hs : s ∈ nodes) :
    ∀ (toConnect : List SensorNode) (conns : List PipeConnection),
      (∀ e ∈ toConnect, e ∈ nodes ∧ e.id ≠ s.id) →
      connectionsWellFormed nodes conns →
      connectionsWellFormed nodes
        (toConnect.foldl (fun acc endNode => pushConnection o s endNode acc) conns)
  | [], _, _, h => h
  | e :: rest, conns, hall, h => by
    simp only [List.foldl_cons]
    exact foldl_pushConnection_wellFormed o nodes s hs rest _
      (fun x hx => hall x (List.mem_cons_of_mem e hx))
      (pushConnection_wellFormed o nodes s e conns hs
        (hall e (List.mem_cons_self e rest)).1
        (hall e (List.mem_cons_self e rest)).2 h)

/-- One outer-loop iteration preserves the generator invariant. -/
theorem connectionsForNode_wellFormed (o : GenOracle) (dist : ℚ × ℚ → ℚ × ℚ → ℚ)
    (nodes : List SensorNode) (density : ℚ) (i : ℕ) (s : SensorNode)
    (hs : s ∈ nodes) (conns : List PipeConnection)
    (h : connectionsWellFormed nodes conns) :
    connectionsWellFormed nodes (connectionsForNode o dist nodes density i s conns) := by
  unfold connectionsForNode
  apply foldl_pushConnection_wellFormed o nodes s hs
  · intro e he
    have hm := mem_spliceSelect _ _ _ _ e he
    have hnear := mem_findNearestNodes dist s.position.1 s.position.2 nodes _ [s.id] e hm
    refine ⟨hnear.1, ?_⟩
    have hc := hnear.2
    simpa using hc
  · exact h

/-- The whole connection-generation phase satisfies the invariant relative to
the node list it was run on. -/
theorem generateConnections_wellFormed (o : GenOracle) (dist : ℚ × ℚ → ℚ × ℚ → ℚ)
    (nodes : List SensorNode) (density : ℚ) :
    connectionsWellFormed nodes (generateConnections o dist nodes density) := by
  unfold generateConnections
  have hmem : ∀ p ∈ nodes.enum, p.2 ∈ nodes := by
    intro p hp
    have hsnd : p.2 ∈ nodes.enum.map Prod.snd := List.mem_map_of_mem Prod.snd hp
    rwa [List.enum_map_snd] at hsnd
  have hstart : connectionsWellFormed nodes ([] : List PipeConnection) :=
    ⟨fun c hc => absurd hc (List.not_mem_nil c), List.Pairwise.nil⟩
  suffices hgen : ∀ (l : List (ℕ × SensorNode)) (acc : List PipeConnection),
      (∀ p ∈ l, p.2 ∈ nodes) → connectionsWellFormed nodes acc →
      connectionsWellFormed nodes
        (l.foldl (fun acc p => connectionsForNode o dist nodes density p.1 p.2 acc) acc) by
    exact hgen nodes.enum [] hmem hstart
  intro l
  induction l with
  | nil => exact fun acc _ h => h
  | cons p rest ih =>
    intro acc hall h
    simp only [List.foldl_cons]
    exact ih _ (fun q hq => hall q (List.mem_cons_of_mem p hq))
      (connectionsForNode_wellFormed o dist nodes density p.1 p.2
        (hall p (List.mem_cons_self p rest)) acc h)

/-- Setting an element to one with the same image leaves the mapped list
unchanged. -/
theorem map_id_set (f : SensorNode → String) :
    ∀ (l : List SensorNode) (i : ℕ) (a b : SensorNode),
      l.get? i = some b → f a = f b → (l.set i a).map f = l.map f
  | [], _, _, _, h, _ => by simp at h
  | x :: xs, 0, a, b, h, hf => by
    injection h with h
    subst h
    simp [hf]
  | x :: xs, i + 1, a, b, h, hf => by
    have hset : ((x :: xs).set (i + 1) a) = x :: xs.set i a := rfl
    rw [hset, List.map_cons, List.map_cons, map_id_set f xs i a b h hf]

/-- The post-pass step only changes status and risk value, never ids. -/
theorem riskPassStep_map_id (connections : List PipeConnection)
    (nodes : List SensorNode) (i : ℕ) :
    (riskPassStep connections nodes i).map (fun n => n.id) =
      nodes.map (fun n => n.id) := by
  unfold riskPassStep
  split
  · rfl
  · next node hget =>
    split
    · rfl
    · apply map_id_set _ nodes i _ node hget
      split_ifs <;> rfl

/-- The whole post-pass preserves the id list. -/
theorem applyRiskPass_map_id (connections : List PipeConnection)
    (nodes : List SensorNode) :
    (applyRiskPass connections nodes).map (fun n => n.id) =
      nodes.map (fun n => n.id) := by
  unfold applyRiskPass
  generalize List.range nodes.length = l
  induction l generalizing nodes with
  | nil => rfl
  | cons i rest ih =>
    simp only [List.foldl_cons]
    rw [ih (riskPassStep connections nodes i), riskPassStep_map_id]

/-- The generator invariant transfers along any id-preserving node update. -/
theorem wellFormed_of_map_id_eq (nodes nodes' : List SensorNode)
    (hid : nodes'.map (fun n => n.id) = nodes.map (fun n => n.id))
    (conns : List PipeConnection) (h : connectionsWellFormed nodes conns) :
    connectionsWellFormed nodes' conns := by
  refine ⟨?_, h.2⟩
  intro c hc
  obtain ⟨h1, h2, h3⟩ := h.1 c hc
  refine ⟨?_, ?_, h3⟩
  · obtain ⟨n, hn, hnid⟩ := h1
    have hmem : c.startNode ∈ nodes.map (fun n => n.id) :=
      List.mem_map.2 ⟨n, hn, hnid⟩
    rw [← hid] at hmem
    obtain ⟨n', hn', hn'id⟩ := List.mem_map.1 hmem
    exact ⟨n', hn', hn'id⟩
  · obtain ⟨n, hn, hnid⟩ := h2
    have hmem : c.endNode ∈ nodes.map (fun n => n.id) :=
      List.mem_map.2 ⟨n, hn, hnid⟩
    rw [← hid] at hmem
    obtain ⟨n', hn', hn'id⟩ := List.mem_map.1 hmem
    exact ⟨n', hn', hn'id⟩

/-- C6: for every network returned by `generateNetworkData` — any random
oracle, distance function, node count and connection density — every
connection's startNode and endNode ids exist in the returned node set, no
connection is a self-loop, and no two connections link the same unordered
node pair. -/
theorem generateNetworkData_invariants (o : GenOracle)
    (dist : ℚ × ℚ → ℚ × ℚ → ℚ) (nodeCount : ℕ) (connectionDensity : ℚ) :
    connectionsWellFormed (generateNetworkData o dist nodeCount connectionDensity).nodes
      (generateNetworkData o dist nodeCount connectionDensity).connections := by
  unfold generateNetworkData
  dsimp only
  exact wellFormed_of_map_id_eq _ _ (applyRiskPass_map_id _ _) _
    (generateConnections_wellFormed o dist _ connectionDensity)

/-! ## Monotonicity in critical neighbours (claim C8) -/

/-- C8: holding the node (its own status and type) and its incident
connection list fixed, `calculateNodeRisk` is monotone non-decreasing in the
number of directly connected Critical neighbours. -/
theorem calculateNodeRisk_monotone_critical_neighbors (node : SensorNode)
    (cs : List PipeConnection) (ns ns' : List SensorNode)
    (h : specCriticalNeighborCount node cs ns ≤ specCriticalNeighborCount node cs ns') :
    calculateNodeRisk node cs ns ≤ calculateNodeRisk node cs ns' := by
  rw [calculateNodeRisk_eq, calculateNodeRisk_eq]
  have hq : (specCriticalNeighborCount node cs ns : ℚ) ≤
      (specCriticalNeighborCount node cs ns' : ℚ) := by exact_mod_cast h
  exact min_le_min le_rfl (by linarith)

/-- C8 witness: a node with no listed neighbours versus the same node with
one Critical neighbour. -/
theorem calculateNodeRisk_monotone_critical_neighbors_witness :
    specCriticalNeighborCount
        { id := "n0", position := (0, 0), status := .Normal, type := .Standard }
        [{ id := "p0", startNode := "n0", endNode := "n1", status := .Normal }]
        [] ≤
      specCriticalNeighborCount
        { id := "n0", position := (0, 0), status := .Normal, type := .Standard }
        [{ id := "p0", startNode := "n0", endNode := "n1", status := .Normal }]
        [{ id := "n1", position := (0, 0), status := .Critical, type := .Standard }] ∧
    calculateNodeRisk
        { id := "n0", position := (0, 0), status := .Normal, type := .Standard }
        [{ id := "p0", startNode := "n0", endNode := "n1", status := .Normal }]
        [] ≤
      calculateNodeRisk
        { id := "n0", position := (0, 0), status := .Normal, type := .Standard }
        [{ id := "p0", startNode := "n0", endNode := "n1", status := .Normal }]
        [{ id := "n1", position := (0, 0), status := .Critical, type := .Standard }] :=
  ⟨by decide, calculateNodeRisk_monotone_critical_neighbors _ _ _ _ (by decide)⟩

end Mujra
